import Mathlib

/-!
Verification of the izmirsu data-acquisition core against its specification.

The development shallowly embeds the relevant JavaScript modules:

* `src/src/cache.js` (the `Cache` localStorage module) — namespace `CacheM`;
* `src/src/api.js` (the Gist + CKAN `API` module) — namespace `ApiA`;
* the Gist-only `API` module embedded in `src/src/cache.js` — namespace `ApiB`;
* the in-flight de-duplication state of `fetchFromGist` — namespace `Dedup`;
* `src/src/countdown.js` (ticker update, year-over-year comparator) — namespace `Cd`;
* the `Tables.getValueClass` water-quality classifier — namespace `TablesM`.

Modelling conventions: JavaScript values are the inductive `JsVal`; machine
numbers are modelled as exact rationals (no floating point is at issue in the
claims); timestamps are integers (milliseconds); `localStorage` is an
association list from string keys to parsed stored values, where a stored
value is either a well-formed cache entry, a settings object, or a string
that fails `JSON.parse` (`corrupt`).  Storage exceptions, which the source
catches and degrades to a no-op, are not modelled.  Fallible code returns
`Except String` (the `String` being the thrown `Error`'s message).
-/

/-- A JavaScript value as relevant to this code base: `undefined`, `null`,
booleans, numbers (modelled as exact rationals), strings, arrays and plain
objects (association lists of fields). -/
inductive JsVal where
  | undefined : JsVal
  | null : JsVal
  | bool (b : Bool) : JsVal
  | num (q : ℚ) : JsVal
  | str (s : String) : JsVal
  | arr (elems : List JsVal) : JsVal
  | obj (fields : List (String × JsVal)) : JsVal

/-- JavaScript truthiness: `undefined`, `null`, `false`, `0` and the empty
string are falsy; every array and object is truthy. -/
def JsVal.truthy : JsVal → Bool
  | .undefined => false
  | .null => false
  | .bool b => b
  | .num q => decide (q ≠ 0)
  | .str s => decide (s ≠ "")
  | .arr _ => true
  | .obj _ => true

/-- Field lookup in an object association list (first match wins, as in a
JavaScript object literal read). -/
def fieldLookup : List (String × JsVal) → String → Option JsVal
  | [], _ => none
  | (k, v) :: rest, key => if k = key then some v else fieldLookup rest key

/-- JavaScript member access `v.k`: the field if `v` is an object carrying it,
`undefined` otherwise (the code only dereferences values it has
truthiness-guarded, so the throwing cases of member access never arise). -/
def JsVal.getField (v : JsVal) (k : String) : JsVal :=
  match v with
  | .obj fs =>
    match fieldLookup fs k with
    | some x => x
    | none => .undefined
  | _ => .undefined

/-- JavaScript `a || b`. -/
def jsOr (a b : JsVal) : JsVal := if a.truthy then a else b

/-- Model of `parseFloat(v) || 0` as used by the CKAN transforms: numeric fields are
modelled as already-parsed numbers, every non-numeric input coerces to `0`. -/
def numOr0 (v : JsVal) : ℚ :=
  match v with
  | .num q => if q = 0 then 0 else q
  | _ => 0

/-- Model of `parseInt(v) || dflt`: truncation toward zero of a numeric value, with
`dflt` replacing `0`/`NaN` results. -/
def parseIntOr (v : JsVal) (dflt : ℤ) : ℤ :=
  match v with
  | .num q => let t : ℤ := q.num / (q.den : ℤ); if t = 0 then dflt else t
  | _ => dflt

/-- String coercion for fields the code lower-cases: the string itself, or the
empty string for the non-string inputs the code reaches only after an
`|| ''` guard. -/
def jsToStr (v : JsVal) : String :=
  match v with
  | .str s => s
  | _ => ""

/-- Helper `listStarts p s` is true when the character list `s` starts with `p`. -/
def listStarts : List Char → List Char → Bool
  | [], _ => true
  | _ :: _, [] => false
  | c :: cs, d :: ds => c == d && listStarts cs ds

/-- JavaScript `String.prototype.startsWith`. -/
def strStarts (s pat : String) : Bool := listStarts pat.toList s.toList

/-- Helper `listIncl s p` is true when `p` occurs as a contiguous run inside `s`. -/
def listIncl : List Char → List Char → Bool
  | [], pat => pat.isEmpty
  | c :: rest, pat => listStarts pat (c :: rest) || listIncl rest pat

/-- JavaScript `String.prototype.includes`. -/
def strIncludes (s pat : String) : Bool := listIncl s.toList pat.toList

/-- JavaScript `String.prototype.toLowerCase`. -/
def strLower (s : String) : String := ⟨s.toList.map Char.toLower⟩

/-- A value is truthy only if it is not `undefined`. -/
theorem truthy_ne_undefined {v : JsVal} (h : v.truthy = true) : v ≠ JsVal.undefined := by
  intro hv; subst hv; simp [JsVal.truthy] at h

/-- A value is truthy only if it is not `null`. -/
theorem truthy_ne_null {v : JsVal} (h : v.truthy = true) : v ≠ JsVal.null := by
  intro hv; subst hv; simp [JsVal.truthy] at h

namespace CacheM

/-- The `Settings` object persisted under `izsu_settings`
(`cache.js` lines 27–31). -/
structure SettingsM where
  cacheDurationHours : ℤ
  theme : String
  accentColor : String
deriving DecidableEq

/-- A value held in `localStorage`, already passed through `JSON.parse`:
either a cache entry `shape { data, timestamp }`, a settings object, or a
string on which `JSON.parse` throws. -/
inductive StoredVal where
  | entry (data : JsVal) (timestamp : ℤ)
  | settingsVal (s : SettingsM)
  | corrupt

/-- The `localStorage` contents: an association list from full string keys to
stored values. -/
abbrev Store := List (String × StoredVal)

/-- Model of `CACHE_PREFIX` from `cache.js` line 10. -/
def cachePfx : String := "izsu_"

/-- Model of `SETTINGS_KEY` from `cache.js` line 11. -/
def settingsKey : String := "izsu_settings"

/-- Model of `DEFAULT_TTL_HOURS` from `cache.js` line 12. -/
def DEFAULT_TTL_HOURS : ℤ := 24

/-- Model of `localStorage.getItem`: first binding of the key, if any. -/
def storeFind : Store → String → Option StoredVal
  | [], _ => none
  | (k, v) :: rest, key => if k = key then some v else storeFind rest key

/-- Model of `localStorage.setItem`: bind the key, shadowing any previous binding. -/
def storePut (st : Store) (k : String) (v : StoredVal) : Store :=
  (k, v) :: st.filter (fun p => decide (p.1 ≠ k))

/-- Model of `localStorage.removeItem`. -/
def storeDel (st : Store) (k : String) : Store :=
  st.filter (fun p => decide (p.1 ≠ k))

/-- The hardcoded default settings (`cache.js` lines 27–31). -/
def defaultSettings : SettingsM :=
  { cacheDurationHours := DEFAULT_TTL_HOURS, theme := "dark", accentColor := "cyan" }

/-- Model of `getSettings` (`cache.js` lines 18–32): the parsed stored settings when
present and parseable, the hardcoded defaults otherwise. -/
def getSettings (st : Store) : SettingsM :=
  match storeFind st settingsKey with
  | some (.settingsVal s) => s
  | _ => defaultSettings

/-- Model of `saveSettings` (`cache.js` lines 38–44). -/
def saveSettings (st : Store) (s : SettingsM) : Store :=
  storePut st settingsKey (.settingsVal s)

/-- Model of `getTTL` (`cache.js` lines 50–53): the TTL in milliseconds computed from
the settings read at call time. -/
def getTTL (st : Store) : ℤ :=
  (getSettings st).cacheDurationHours * 60 * 60 * 1000

/-- Model of `getCacheKey` (`cache.js` lines 60–62). -/
def getCacheKey (key : String) : String := cachePfx ++ key

/-- Model of `get` (`cache.js` lines 69–92): returns the stored payload if a parseable
entry is present and not expired against the TTL of the *current* settings;
an expired entry is removed; a missing or unparseable entry yields `null`.
A settings object stored under the probed key destructures to
`data = undefined, timestamp = undefined`; the expiry comparison on `NaN` is
false, so the JavaScript returns `undefined` on that (unreachable) path.
Returns the value together with the possibly-updated store. -/
def get (st : Store) (key : String) (now : ℤ) : JsVal × Store :=
  match storeFind st (getCacheKey key) with
  | none => (.null, st)
  | some .corrupt => (.null, st)
  | some (.settingsVal _) => (.undefined, st)
  | some (.entry d ts) =>
    if now - ts > getTTL st then (.null, storeDel st (getCacheKey key))
    else (d, st)

/-- Model of `set` (`cache.js` lines 99–123), with the storage-quota failure path
(caught and degraded) not modelled: writes `{ data, timestamp: Date.now() }`
under the namespaced key. -/
def set (st : Store) (key : String) (data : JsVal) (now : ℤ) : Store :=
  storePut st (getCacheKey key) (.entry data now)

/-- Model of `clearAll` (`cache.js` lines 198–211): removes every key that starts with
`CACHE_PREFIX`. -/
def clearAll (st : Store) : Store :=
  st.filter (fun p => !(strStarts p.1 cachePfx))

/-- Model of `getTimestamp` (`cache.js` lines 167–181). -/
def getTimestamp (st : Store) (key : String) : Option ℤ :=
  match storeFind st (getCacheKey key) with
  | some (.entry _ ts) => some ts
  | _ => none

/-- A found binding is a member of the store. -/
theorem storeFind_mem {st : Store} {k : String} {v : StoredVal}
    (h : storeFind st k = some v) : (k, v) ∈ st := by
  induction st with
  | nil => simp [storeFind] at h
  | cons p rest ih =>
    obtain ⟨k', v'⟩ := p
    by_cases hk : k' = k
    · subst hk
      simp [storeFind] at h
      simp [h]
    · simp [storeFind, hk] at h
      exact List.mem_cons_of_mem _ (ih h)

/-- Looking up the key just put. -/
theorem storeFind_put_self (st : Store) (k : String) (v : StoredVal) :
    storeFind (storePut st k v) k = some v := by
  simp [storePut, storeFind]

/-- A filtered store never finds a binding whose key fails the filter. -/
theorem storeFind_filter_none {st : Store} {p : String × StoredVal → Bool}
    {k : String} (h : ∀ v : StoredVal, p (k, v) = false) :
    storeFind (st.filter p) k = none := by
  induction st with
  | nil => rfl
  | cons q rest ih =>
    obtain ⟨k', v'⟩ := q
    by_cases hk : k' = k
    · subst hk
      simp only [List.filter_cons, h v']
      exact ih
    · cases hp : p (k', v') with
      | false => simp only [List.filter_cons, hp]; exact ih
      | true =>
        simp only [List.filter_cons, hp, if_pos]
        simpa [storeFind, hk] using ih

/-- A concrete store whose only cache entry is fresh but carries the payload
`null`. -/
def nullPayloadStore : Store := [("izsu_k", .entry .null 0)]

end CacheM


open CacheM in
/-- Claim C1 fails as stated: the backward direction of its "iff" does not
hold.  In `nullPayloadStore` the key `k` holds a parseable entry whose
`timestamp` satisfies `now - timestamp <= ttlMs` for the current TTL (24h
default), yet `Cache.get` returns `null`, because `get` returns the stored
payload itself and that payload is `null`. -/
theorem cache_get_null_payload_counterexample :
    (CacheM.get nullPayloadStore "k" 0).1 = JsVal.null ∧
    storeFind nullPayloadStore (getCacheKey "k") = some (.entry .null 0) ∧
    (0 : ℤ) - 0 ≤ getTTL nullPayloadStore := by
  refine ⟨rfl, rfl, by decide⟩

open CacheM in
/-- Claim C1, amended: for a cache key that does not hold the (settings)
object, `Cache.get(key)` returns non-null iff a parseable entry with a
non-null payload is present and `now - storedAtTimestamp <= ttlMs`, where
`ttlMs` is computed from the settings value current at the time of the call
(`getTTL` reads `getSettings` on the store as it is at `get` time); and
saving settings with a new `cacheDurationHours` immediately changes the TTL
against which every existing entry is checked. -/
theorem cache_get_iff_fresh_current_ttl (st : Store) (key : String) (now : ℤ)
    (hns : ∀ s, storeFind st (getCacheKey key) ≠ some (.settingsVal s)) :
    ((CacheM.get st key now).1 ≠ JsVal.null ↔
      ∃ d ts, storeFind st (getCacheKey key) = some (.entry d ts) ∧
        d ≠ JsVal.null ∧ now - ts ≤ getTTL st) ∧
    (∀ s', getTTL (saveSettings st s') = s'.cacheDurationHours * 60 * 60 * 1000) := by
  constructor
  · unfold CacheM.get
    cases hfind : storeFind st (getCacheKey key) with
    | none => simp [hfind]
    | some sv =>
      cases sv with
      | corrupt => simp
      | settingsVal s => exact absurd hfind (hns s)
      | entry d ts =>
        by_cases hexp : now - ts > getTTL st
        · simp only [if_pos hexp]
          constructor
          · intro h; exact absurd rfl h
          · rintro ⟨d', ts', hds, _, hle⟩
            cases hds
            omega
        · simp only [if_neg hexp]
          constructor
          · intro hd
            exact ⟨d, ts, rfl, hd, by omega⟩
          · rintro ⟨d', ts', hds, hd, _⟩
            cases hds
            exact hd
  · intro s'
    unfold getTTL getSettings saveSettings
    rw [storeFind_put_self]

open CacheM in
/-- Witness for the amended C1 at a concrete input: a store holding a fresh
entry with payload `42` under `izsu_k` and no settings object. -/
theorem cache_get_iff_fresh_current_ttl_witness :
    (CacheM.get [("izsu_k", StoredVal.entry (JsVal.num 42) 0)] "k" 0).1 ≠ JsVal.null := by
  have h := cache_get_iff_fresh_current_ttl
      [("izsu_k", StoredVal.entry (JsVal.num 42) 0)] "k" 0 (by
        intro s hs
        rw [show getCacheKey "k" = "izsu_k" from rfl] at hs
        simp [storeFind] at hs)
  refine h.1.mpr ⟨JsVal.num 42, 0, rfl, ?_, by decide⟩
  intro hq
  cases hq

open CacheM in
/-- Claim C10: `clearAll` removes every `localStorage` key starting with the
cache namespace `izsu_`; since `SETTINGS_KEY = "izsu_settings"` shares that
namespace, the persisted settings are deleted too, and `getSettings` after
`clearAll` yields the hardcoded defaults `cacheDurationHours = 24`,
`theme = "dark"`, `accentColor = "cyan"`. -/
theorem clearAll_removes_settings (st : Store) :
    (∀ k, strStarts k cachePfx = true → storeFind (clearAll st) k = none) ∧
    storeFind (clearAll st) settingsKey = none ∧
    getSettings (clearAll st) = defaultSettings ∧
    defaultSettings = ⟨24, "dark", "cyan"⟩ := by
  have hall : ∀ k, strStarts k cachePfx = true → storeFind (clearAll st) k = none := by
    intro k hk
    exact storeFind_filter_none (fun v => by simp [hk])
  have hset : storeFind (clearAll st) settingsKey = none :=
    hall settingsKey (by decide)
  refine ⟨hall, hset, ?_, rfl⟩
  unfold getSettings
  rw [hset]

open CacheM in
/-- Witness for C10 at a concrete store holding saved settings, a cache entry
and an unrelated key. -/
theorem clearAll_removes_settings_witness :
    storeFind
      (clearAll [(settingsKey, StoredVal.settingsVal ⟨1, "light", "red"⟩),
                 ("izsu_x", StoredVal.entry JsVal.null 5),
                 ("other", StoredVal.corrupt)]) "izsu_x" = none :=
  (clearAll_removes_settings _).1 "izsu_x" (by decide)

namespace TablesM

/-- The CSS class returned by `Tables.getValueClass`: `value-normal` (the
neutral class), `value-warning`, `value-danger`. -/
inductive VClass where
  | normal
  | warning
  | danger
deriving DecidableEq

/-- A quality limit rule `{min?, max?}` (thresholds may each be absent,
checked by the source with `!== undefined`). -/
structure QLimit where
  min : Option ℚ
  max : Option ℚ
deriving DecidableEq

/-- Model of `Tables.getValueClass` (tables module lines 22–52): classify a parameter
value against its threshold rule.  `value = none` models a value on which
`parseFloat` yields `NaN`. -/
def getValueClass (paramName : String) (value : Option ℚ)
    (qualityLimits : String → Option QLimit) : VClass :=
  match qualityLimits paramName with
  | none => .normal
  | some lim =>
    match value with
    | none => .normal
    | some numValue =>
      match lim.min, lim.max with
      | some mn, some mx =>
        if numValue < mn ∨ numValue > mx then .danger
        else if numValue < mn * (11/10) ∨ numValue > mx * (9/10) then .warning
        else .normal
      | none, some mx =>
        if numValue > mx then .danger
        else if numValue > mx * (8/10) then .warning
        else .normal
      | some mn, none =>
        if numValue < mn then .danger
        else if numValue < mn * (12/10) then .warning
        else .normal
      | none, none => .normal

/-- A quality-limits table carrying the single rule `{min: 0.2, max: 0.5}`
for parameter `"x"`. -/
def sampleLimits : String → Option QLimit :=
  fun p => if p = "x" then some ⟨some (1/5), some (1/2)⟩ else none

end TablesM

open TablesM in
/-- Claim C7: against the rule `{min: 0.2, max: 0.5}` the classifier returns
`good` (`value-normal`) for 0.3, `danger` for 0.55, and `warning` for 0.21
(which is below the exact multiplier `1.1 × min = 0.22`); any warning
produced by a rule carrying a max bound is either a value strictly above 80%
of that max or a min-side warning (the warning band near a max bound starts
above 80% of max); and a parameter with no matching rule is always classified
with the neutral class. -/
theorem getValueClass_spec :
    getValueClass "x" (some (3/10)) sampleLimits = .normal ∧
    getValueClass "x" (some (11/20)) sampleLimits = .danger ∧
    getValueClass "x" (some (21/100)) sampleLimits = .warning ∧
    (∀ (qualityLimits : String → Option QLimit) (p : String) (omn : Option ℚ) (x mx : ℚ),
      qualityLimits p = some ⟨omn, some mx⟩ →
      getValueClass p (some x) qualityLimits = .warning →
      (8/10) * mx < x ∨ ∃ mn, omn = some mn ∧ x < mn * (11/10)) ∧
    (∀ (qualityLimits : String → Option QLimit) (p : String) (v : Option ℚ),
      qualityLimits p = none → getValueClass p v qualityLimits = .normal) := by
  refine ⟨by norm_num [getValueClass, sampleLimits], by norm_num [getValueClass, sampleLimits],
    by norm_num [getValueClass, sampleLimits], ?_, ?_⟩
  · intro qualityLimits p omn x mx hlim hcls
    unfold getValueClass at hcls
    rw [hlim] at hcls
    cases omn with
    | none =>
      dsimp only at hcls
      split_ifs at hcls with h1 h2
      left; linarith
    | some mn =>
      dsimp only at hcls
      split_ifs at hcls with h1 h2
      push_neg at h1
      cases h2 with
      | inl h => exact Or.inr ⟨mn, rfl, h⟩
      | inr h => left; linarith [h1.2]
  · intro qualityLimits p v hnone
    unfold getValueClass
    rw [hnone]

open TablesM in
/-- Witness for C7's universally quantified conjuncts: the max-only rule
`{max: 10}` classifies 9 as `warning`, and 9 is above 80% of 10; a parameter
with no rule in `sampleLimits` is neutral. -/
theorem getValueClass_spec_witness :
    ((8/10 : ℚ) * 10 < 9 ∨ ∃ mn, (none : Option ℚ) = some mn ∧ (9:ℚ) < mn * (11/10)) ∧
    getValueClass "y" (some 1) sampleLimits = .normal :=
  ⟨getValueClass_spec.2.2.2.1 (fun _ => some ⟨none, some 10⟩) "y" none 9 10
      rfl (by norm_num [TablesM.getValueClass]),
    getValueClass_spec.2.2.2.2 sampleLimits "y" (some 1) (by simp [TablesM.sampleLimits])⟩

namespace ApiA

/-- Model of `RETRY_CONFIG.maxRetries` (`api.js` line 44). -/
def RETRY_maxRetries : ℕ := 3

/-- Model of `RETRY_CONFIG.baseDelayMs` (`api.js` line 45). -/
def RETRY_baseDelayMs : ℚ := 1000

/-- Model of `RETRY_CONFIG.maxDelayMs` (`api.js` line 46). -/
def RETRY_maxDelayMs : ℚ := 10000

/-- Model of `getBackoffDelay` (`api.js` lines 115–119): `Math.random() * 500` is
passed in as the `jitter` argument, constrained to `[0, 500)` where the
theorem needs it. -/
def getBackoffDelay (attempt : ℕ) (jitter : ℚ) : ℚ :=
  min (RETRY_baseDelayMs * 2 ^ attempt + jitter) RETRY_maxDelayMs

end ApiA

open ApiA in
/-- Claim C6: the backoff delay for attempt `n` is
`min(1000ms * 2 ^ n + jitter, 10000ms)`, and for any attempts `m < n` and any
jitter draws in `[0, 500)` the delay for attempt `n` is at least the delay
for attempt `m`. -/
theorem getBackoffDelay_monotone :
    (∀ (a : ℕ) (j : ℚ), getBackoffDelay a j = min ((1000 : ℚ) * 2 ^ a + j) 10000) ∧
    (∀ (m n : ℕ) (jm jn : ℚ), m < n → 0 ≤ jm → jm < 500 → 0 ≤ jn → jn < 500 →
      getBackoffDelay m jm ≤ getBackoffDelay n jn) := by
  constructor
  · intro a j; rfl
  · intro m n jm jn hmn hjm0 hjm hjn0 _
    unfold getBackoffDelay RETRY_baseDelayMs RETRY_maxDelayMs
    apply min_le_min _ le_rfl
    have h1 : (1 : ℚ) ≤ 2 ^ m := by
      simpa using pow_le_pow_right₀ (by norm_num : (1:ℚ) ≤ 2) (Nat.zero_le m)
    have h2 : (2 : ℚ) ^ (m + 1) ≤ 2 ^ n :=
      pow_le_pow_right₀ (by norm_num : (1:ℚ) ≤ 2) hmn
    have h2' : 2 * (2 : ℚ) ^ m ≤ 2 ^ n := by
      calc 2 * (2 : ℚ) ^ m = 2 ^ (m + 1) := by ring
      _ ≤ 2 ^ n := h2
    linarith

open ApiA in
/-- Witness for C6: the attempt-1 delay with zero jitter dominates the
attempt-0 delay with maximal jitter. -/
theorem getBackoffDelay_monotone_witness :
    getBackoffDelay 0 499 ≤ getBackoffDelay 1 0 :=
  getBackoffDelay_monotone.2 0 1 499 0 (by norm_num) (by norm_num) (by norm_num)
    (by norm_num) (by norm_num)

namespace Cd

/-- The countdown anchor captured by `Countdown.render`
(`countdown.js` lines 35–41). -/
structure CountdownData where
  startTime : ℚ
  startWater : ℚ
  consumptionPerSecond : ℚ
  usableCapacity : ℚ

/-- Source line `const elapsed = (Date.now() - countdownData.startTime) / 1000`
(`countdown.js` line 92). -/
def elapsedSeconds (d : CountdownData) (now : ℚ) : ℚ :=
  (now - d.startTime) / 1000

/-- Source line `currentWater = Math.max(0, startWater - elapsed * consumptionPerSecond)`
(`countdown.js` line 93): the remaining volume computed at each tick of
`update`. -/
def updateCurrentWater (d : CountdownData) (now : ℚ) : ℚ :=
  max 0 (d.startWater - elapsedSeconds d now * d.consumptionPerSecond)

/-- A production-distribution record, with `Yıl`/`Ay`/`Üretim Miktarı`
fields already passed through `parseInt(..) || 0` (so integers). -/
structure ProdRec where
  Yil : ℤ
  Ay : ℤ
  UretimMiktari : ℤ
  UretimKaynagi : String

/-- Model of `Number.prototype.toFixed(1)` read back as a number (the code renders the
string; only its numeric content matters to the claims): round half-up to one
decimal place. -/
def toFixed1 (q : ℚ) : ℚ := ((round (q * 10) : ℤ) : ℚ) / 10

/-- The object built by `getLastYearSameDayData`
(`countdown.js` lines 316–322).  `barajPercentage`/`kuyuPercentage` are the
`toFixed(1)` percentages, or the number `0` when the month total is zero. -/
structure LastYearData where
  total : ℤ
  baraj : ℤ
  kuyu : ℤ
  barajPercentage : ℚ
  kuyuPercentage : ℚ

/-- Model of `getLastYearSameDayData` (`countdown.js` lines 296–323): `lastYear` and
`currentMonth` stand for `now.getFullYear() - 1` and `now.getMonth() + 1`.
Returns `null` (here `none`) when no record of the distribution matches the
prior-year month; otherwise daily estimates (`Math.round(total / 30)`) and
category percentages. -/
def getLastYearSameDayData (lastYear currentMonth : ℤ)
    (distribution : List ProdRec) : Option LastYearData :=
  let lastYearMonthData := distribution.filter
    (fun d => decide (d.Yil = lastYear) && decide (d.Ay = currentMonth))
  if lastYearMonthData.isEmpty then none
  else
    let totalProduction : ℤ := lastYearMonthData.foldl (fun sum d => sum + d.UretimMiktari) 0
    let barajTotal : ℤ := (lastYearMonthData.filter
      (fun d => strIncludes (strLower d.UretimKaynagi) "baraj")).foldl
        (fun sum d => sum + d.UretimMiktari) 0
    let kuyuTotal : ℤ := totalProduction - barajTotal
    some
      { total := round ((totalProduction : ℚ) / 30)
        baraj := round ((barajTotal : ℚ) / 30)
        kuyu := round ((kuyuTotal : ℚ) / 30)
        barajPercentage :=
          if totalProduction ≠ 0 then toFixed1 ((barajTotal : ℚ) / (totalProduction : ℚ) * 100) else 0
        kuyuPercentage :=
          if totalProduction ≠ 0 then toFixed1 ((kuyuTotal : ℚ) / (totalProduction : ℚ) * 100) else 0 }

/-- The structure of one comparison slot of the HTML built by
`calculateYearOverYearComparison`: the empty string, the
`production.lastYearNoData` message, a total year-over-year delta, or a
category percentage comparison.  The `up` flag mirrors the
`comparison-up`/`comparison-down` class choice. -/
inductive CmpHtml where
  | blank
  | noData
  | totalDelta (diff : ℚ) (up : Bool)
  | pctCmp (lastPct : ℚ) (diff : ℚ) (up : Bool)
deriving DecidableEq

/-- The record returned by `calculateYearOverYearComparison`
(`countdown.js` lines 329–333). -/
structure CmpResult where
  totalHtml : CmpHtml
  barajHtml : CmpHtml
  kuyuHtml : CmpHtml
deriving DecidableEq

/-- Model of `calculateYearOverYearComparison` (`countdown.js` lines 328–360).
`_barajTot`/`_kuyuTot` mirror arguments the source accepts but never reads.
With no prior-year data every slot is the no-data message; otherwise the
total slot is only filled `if (lastYearData.total)` — a zero prior total
leaves it as the initial empty string — while the category slots always
carry percentage comparisons. -/
def calculateYearOverYearComparison (totalProd _barajTot _kuyuTot barajPct kuyuPct : ℚ)
    (lastYearData : Option LastYearData) : CmpResult :=
  match lastYearData with
  | none => ⟨.noData, .noData, .noData⟩
  | some d =>
    let totalHtml :=
      if (d.total : ℚ) ≠ 0 then
        let totalDiff := toFixed1 ((totalProd - (d.total : ℚ)) / (d.total : ℚ) * 100)
        CmpHtml.totalDelta totalDiff (decide (0 ≤ totalDiff))
      else .blank
    let barajPctDiff := toFixed1 (barajPct - d.barajPercentage)
    let kuyuPctDiff := toFixed1 (kuyuPct - d.kuyuPercentage)
    ⟨totalHtml,
      .pctCmp d.barajPercentage barajPctDiff (decide (0 ≤ barajPctDiff)),
      .pctCmp d.kuyuPercentage kuyuPctDiff (decide (0 ≤ kuyuPctDiff))⟩

end Cd

open Cd in
/-- Claim C8: at every tick the computed remaining volume equals
`max(0, startWater - elapsedSeconds * consumptionPerSecond)`, it is never
negative, and with `startVolume = 1000`, `consumptionPerSecond = 1` it is
`600` after 400 elapsed seconds and exactly `0` after 2000 elapsed seconds
(times are in epoch milliseconds, so 400 s elapsed is `now = 400000` against
`startTime = 0`). -/
theorem countdown_update_floor_at_zero :
    (∀ (d : CountdownData) (now : ℚ),
      updateCurrentWater d now =
        max 0 (d.startWater - (now - d.startTime) / 1000 * d.consumptionPerSecond)) ∧
    (∀ (d : CountdownData) (now : ℚ), 0 ≤ updateCurrentWater d now) ∧
    (∀ cap, updateCurrentWater ⟨0, 1000, 1, cap⟩ 400000 = 600) ∧
    (∀ cap, updateCurrentWater ⟨0, 1000, 1, cap⟩ 2000000 = 0) := by
  refine ⟨fun d now => rfl, fun d now => le_max_left 0 _, ?_, ?_⟩
  · intro cap
    norm_num [updateCurrentWater, elapsedSeconds, max_def]
  · intro cap
    norm_num [updateCurrentWater, elapsedSeconds, max_def]

open Cd in
/-- Claim C9 fails in its zero-denominator half: a distribution holding one
matching prior-year record with production `0` makes
`getLastYearSameDayData` return a non-null object with `total = 0`, and
`calculateYearOverYearComparison` then leaves the total slot as the empty
string — not the `lastYearNoData` signal. -/
theorem yoy_zero_total_counterexample :
    (getLastYearSameDayData 2024 5 [⟨2024, 5, 0, "x"⟩]).isSome = true ∧
    (∀ d, getLastYearSameDayData 2024 5 [⟨2024, 5, 0, "x"⟩] = some d → d.total = 0) ∧
    (calculateYearOverYearComparison 100 70 30 70 30
        (getLastYearSameDayData 2024 5 [⟨2024, 5, 0, "x"⟩])).totalHtml = CmpHtml.blank ∧
    CmpHtml.blank ≠ CmpHtml.noData := by
  have hg : getLastYearSameDayData 2024 5 [⟨2024, 5, 0, "x"⟩] =
      some { total := 0, baraj := 0, kuyu := 0, barajPercentage := 0, kuyuPercentage := 0 } := by
    unfold getLastYearSameDayData
    norm_num [List.filter, List.foldl, List.isEmpty, strIncludes, strLower, listIncl, listStarts]
  refine ⟨by rw [hg]; rfl, ?_, ?_, by simp⟩
  · intro d hd
    rw [hg] at hd
    cases hd
    rfl
  · rw [hg]
    norm_num [calculateYearOverYearComparison]

open Cd in
/-- Claim C9, amended: when the prior-year same-calendar-month slice of the
distribution has zero matching records, the comparator chain returns the
explicit no-data signal in every slot (never a numeric delta); when matching
records exist but the prior total production — the delta's denominator — is
zero, the total slot is left blank rather than carrying a numeric delta,
`NaN` or `Infinity` (the category slots still carry percentage
comparisons). -/
theorem yoy_no_prior_data_signal (lastYear currentMonth : ℤ)
    (distribution : List ProdRec) (totalProd barajTot kuyuTot barajPct kuyuPct : ℚ) :
    ((∀ r ∈ distribution, ¬(r.Yil = lastYear ∧ r.Ay = currentMonth)) →
      getLastYearSameDayData lastYear currentMonth distribution = none ∧
      calculateYearOverYearComparison totalProd barajTot kuyuTot barajPct kuyuPct
        (getLastYearSameDayData lastYear currentMonth distribution) =
          ⟨.noData, .noData, .noData⟩) ∧
    (∀ d : LastYearData, d.total = 0 →
      (calculateYearOverYearComparison totalProd barajTot kuyuTot barajPct kuyuPct
        (some d)).totalHtml = .blank) := by
  constructor
  · intro hnone
    have hfil : distribution.filter
        (fun d => decide (d.Yil = lastYear) && decide (d.Ay = currentMonth)) = [] := by
      rw [List.filter_eq_nil_iff]
      intro a ha
      have := hnone a ha
      simp only [Bool.and_eq_true, decide_eq_true_eq]
      tauto
    have hg : getLastYearSameDayData lastYear currentMonth distribution = none := by
      unfold getLastYearSameDayData
      rw [hfil]
      rfl
    exact ⟨hg, by rw [hg]; rfl⟩
  · intro d hd
    unfold calculateYearOverYearComparison
    simp [hd]

open Cd in
/-- Witness for the amended C9 at a concrete input: a distribution whose only
record is for 2025 has no 2024 records, so the May-2025 comparison against
2024 yields the no-data signal in every slot. -/
theorem yoy_no_prior_data_signal_witness :
    calculateYearOverYearComparison 100 70 30 70 30
      (getLastYearSameDayData 2024 5 [⟨2025, 5, 40, "baraj a"⟩]) =
        ⟨CmpHtml.noData, CmpHtml.noData, CmpHtml.noData⟩ :=
  ((yoy_no_prior_data_signal 2024 5 [⟨2025, 5, 40, "baraj a"⟩] 100 70 30 70 30).1
    (by intro r hr h; simp at hr; subst hr; exact absurd h.1 (by decide))).2

namespace Dedup

/-- The module-level mutable state of `fetchFromGist` (`api.js` lines 49–51):
the in-memory envelope `gistData` (modelled as its `_fetchedAt` stamp and
payload), the shared in-flight promise `gistFetchPromise` (modelled as the
list of callers attached to it, `none` when no fetch is in flight), and a
count of network requests issued to the envelope endpoint. -/
structure DState where
  gistData : Option (ℤ × JsVal)
  pending : Option (List ℕ)
  requests : ℕ

/-- The freshness test of `api.js` line 63:
`gistData && gistData._fetchedAt && (Date.now() - gistData._fetchedAt < 300000)`. -/
def freshB (s : DState) (now : ℤ) : Bool :=
  match s.gistData with
  | some (t, _) => decide (t ≠ 0) && decide (now - t < 300000)
  | none => false

/-- How one call into `fetchFromGist` returns: synchronously from the fresh
in-memory envelope, by awaiting the already-pending shared promise, or by
installing a new shared promise (which issues the one network request). -/
inductive ArriveRes where
  | servedCached (v : JsVal)
  | attached
  | started

/-- The cache-stale path of `fetchFromGist` (`api.js` lines 68–96): attach to
`gistFetchPromise` if set, otherwise set it and issue the network request.
This happens synchronously before any suspension point, hence in one atomic
step of the cooperative model. -/
def arriveMiss (s : DState) (c : ℕ) : DState × ArriveRes :=
  match s.pending with
  | some l => ({ s with pending := some (l ++ [c]) }, .attached)
  | none => ({ s with pending := some [c], requests := s.requests + 1 }, .started)

/-- One call into `fetchFromGist` (`api.js` lines 61–96): return the cached
envelope when fresh, otherwise the check-and-set of the shared promise. -/
def arrive (s : DState) (now : ℤ) (c : ℕ) : DState × ArriveRes :=
  match s.gistData with
  | some (t, v) =>
    if t ≠ 0 ∧ now - t < 300000 then (s, .servedCached v)
    else arriveMiss s c
  | none => arriveMiss s c

/-- A burst of concurrent callers entering `fetchFromGist`, interleaved by
the single-threaded event loop with no fetch completion in between. -/
def burst (now : ℤ) : DState → List ℕ → DState
  | s, [] => s
  | s, c :: cs => burst now (arrive s now c).1 cs

/-- Settlement of the shared promise (`api.js` lines 72–94): on success
(`some v`) the envelope is stored with `_fetchedAt := now`, on failure the
promise resolves to `null` for everyone; either way the `finally` clears
`gistFetchPromise`, and every attached caller resolves from the same
outcome. -/
def complete (s : DState) (now : ℤ) (result : Option JsVal) :
    DState × List (ℕ × Option JsVal) :=
  ({ gistData := match result with | some v => some (now, v) | none => s.gistData,
     pending := none,
     requests := s.requests },
   (s.pending.getD []).map (fun c => (c, result)))

/-- Requests made by a burst: at most one new request overall, and none at
all when the state starts fresh or with a fetch in flight. -/
theorem burst_requests (now : ℤ) (cs : List ℕ) : ∀ s : DState,
    (burst now s cs).requests ≤ s.requests + 1 ∧
    ((freshB s now = true ∨ s.pending ≠ none) →
      (burst now s cs).requests = s.requests) := by
  induction cs with
  | nil => intro s; exact ⟨Nat.le_succ _, fun _ => rfl⟩
  | cons c cs ih =>
    intro s
    obtain ⟨g, p, r⟩ := s
    cases g with
    | some tv =>
      obtain ⟨t, v⟩ := tv
      by_cases hf : t ≠ 0 ∧ now - t < 300000
      · have harr : (arrive ⟨some (t, v), p, r⟩ now c).1 = ⟨some (t, v), p, r⟩ := by
          simp [arrive, hf]
        simp only [burst, harr]
        exact ⟨(ih _).1, fun _ => (ih _).2 (Or.inl (by simp [freshB, hf.1, hf.2]))⟩
      · cases p with
        | some l =>
          have harr : (arrive ⟨some (t, v), some l, r⟩ now c).1 =
              ⟨some (t, v), some (l ++ [c]), r⟩ := by
            simp [arrive, arriveMiss, hf]
          simp only [burst, harr]
          have h2 := (ih ⟨some (t, v), some (l ++ [c]), r⟩).2 (Or.inr (by simp))
          exact ⟨by rw [h2]; exact Nat.le_succ _, fun _ => h2⟩
        | none =>
          have harr : (arrive ⟨some (t, v), none, r⟩ now c).1 =
              ⟨some (t, v), some [c], r + 1⟩ := by
            simp [arrive, arriveMiss, hf]
          simp only [burst, harr]
          have h2 := (ih ⟨some (t, v), some [c], r + 1⟩).2 (Or.inr (by simp))
          refine ⟨by rw [h2], fun h => ?_⟩
          rcases h with h | h
          · exact absurd (by simpa [freshB] using h) hf
          · exact absurd rfl h
    | none =>
      cases p with
      | some l =>
        have harr : (arrive ⟨none, some l, r⟩ now c).1 = ⟨none, some (l ++ [c]), r⟩ := by
          simp [arrive, arriveMiss]
        simp only [burst, harr]
        have h2 := (ih ⟨none, some (l ++ [c]), r⟩).2 (Or.inr (by simp))
        exact ⟨by rw [h2]; exact Nat.le_succ _, fun _ => h2⟩
      | none =>
        have harr : (arrive ⟨none, none, r⟩ now c).1 = ⟨none, some [c], r + 1⟩ := by
          simp [arrive, arriveMiss]
        simp only [burst, harr]
        have h2 := (ih ⟨none, some [c], r + 1⟩).2 (Or.inr (by simp))
        refine ⟨by rw [h2], fun h => ?_⟩
        rcases h with h | h
        · simp [freshB] at h
        · exact absurd rfl h

end Dedup

open Dedup in
/-- Claim C4: any number of concurrent callers entering `fetchFromGist` in
one event-loop burst issue at most one network request in total, and none at
all when the in-memory envelope is fresh or a fetch is already in flight
(the check-and-set of `gistFetchPromise` happens synchronously before any
await); and when the single shared promise settles, every attached caller
resolves from that same outcome. -/
theorem fetchFromGist_dedup (s : DState) (now : ℤ) (cs : List ℕ) :
    ((freshB s now = true ∨ s.pending ≠ none) →
      (burst now s cs).requests = s.requests) ∧
    (burst now s cs).requests ≤ s.requests + 1 ∧
    (∀ (result : Option JsVal) (c : ℕ) (out : Option JsVal),
      (c, out) ∈ (complete s now result).2 → out = result) ∧
    (∀ (result : Option JsVal) (c : ℕ), c ∈ s.pending.getD [] →
      (c, result) ∈ (complete s now result).2) := by
  refine ⟨(burst_requests now cs s).2, (burst_requests now cs s).1, ?_, ?_⟩
  · intro result c out hmem
    simp only [complete, List.mem_map] at hmem
    obtain ⟨c', _, heq⟩ := hmem
    exact (Prod.mk.injEq _ _ _ _ ▸ heq).2.symm ▸ rfl
  · intro result c hc
    simp only [complete, List.mem_map]
    exact ⟨c, hc, rfl⟩

open Dedup in
/-- Witness for C4: five concurrent callers entering with a fetch already in
flight issue zero new requests, and a caller attached to the shared promise
resolves with the promise's outcome. -/
theorem fetchFromGist_dedup_witness :
    (burst 0 ⟨none, some [], 0⟩ [1, 2, 3, 4, 5]).requests = 0 ∧
    (1, some (JsVal.num 7)) ∈ (complete ⟨none, some [1], 0⟩ 0 (some (JsVal.num 7))).2 :=
  ⟨(fetchFromGist_dedup ⟨none, some [], 0⟩ 0 [1, 2, 3, 4, 5]).1 (Or.inr (by simp)),
    (fetchFromGist_dedup ⟨none, some [1], 0⟩ 0 []).2.2.2 (some (JsVal.num 7)) 1 (by simp)⟩

namespace ApiA

/-- Model of `ENDPOINTS` (`api.js` lines 29–41): legacy endpoint names used as cache
keys. -/
def EP_OUTAGES : String := "arizakaynaklisukesintileri"

def EP_DAMS_WELLS : String := "barajvekuyular"

def EP_DAM_STATUS : String := "barajdurum"

def EP_DAILY_PRODUCTION : String := "gunluksuuretimi"

def EP_PRODUCTION_DISTRIBUTION : String := "suuretiminindagilimi"

def EP_WEEKLY_ANALYSIS : String := "haftaliksuanalizleri"

def EP_DISTRICT_ANALYSIS : String := "cevreilcesuanalizleri"

def EP_DAM_QUALITY : String := "barajsukaliteraporlari"

def EP_CONSUMPTION : String := "tuketim"

def EP_WATER_LOSSES : String := "sukayiplari"

def EP_TARIFFS : String := "tarifeler"

/-- Model of `CKAN_RESOURCES` (`api.js` lines 19–26). -/
def CKAN_DAM_STATUS : String := "5c2ad5b0-f681-45a6-b72c-170791ea8f50"

def CKAN_DAILY_PRODUCTION : String := "0eca9087-41de-4beb-93a2-d7129faede40"

def CKAN_PRODUCTION_DISTRIBUTION : String := "e3f93f98-38a3-41d9-b89e-a7d1d378475b"

def CKAN_CONSUMPTION : String := "7a7485e5-2f04-4daf-9cc0-75ef1c24bc23"

def CKAN_WATER_LOSSES : String := "0c70a23a-b293-4906-a348-2cbd5be65d86"

def CKAN_TARIFFS : String := "a523da27-7756-439b-83ed-1da073d8dc86"

/-- The outside world one `fetchAll` run sees.  `gist` is the settled result
of the (de-duplicated, hence consistent across getters) `fetchFromGist`:
`none` when it resolved `null`, `some v` for the parsed envelope.
`ckan rid attempt` is the settled outcome of the `attempt`-th CKAN request
for resource `rid` (`ok` carries `json.result.records`; `error` carries the
thrown message, covering HTTP failures, `success: false` bodies, and parse
errors alike).  `todayStr` and `currentYear` stand for
`new Date().toISOString().split('T')[0]` and `new Date().getFullYear()`;
`now` is `Date.now()` for cache timestamps. -/
structure ApiEnv where
  gist : Option JsVal
  ckan : String → ℕ → Except String (List JsVal)
  consumption : ℤ → Except String (List JsVal)
  todayStr : String
  currentYear : ℤ
  now : ℤ

/-- Model of `getFromGist` (`api.js` lines 104–113, byte-identical in the Gist-only
module of `cache.js`): the endpoint's payload when the envelope arrived, has
an `endpoints` map carrying a truthy payload for this endpoint, and that
payload carries no `error` marker; `null` otherwise. -/
def getFromGist (g : Option JsVal) (endpoint : String) : JsVal :=
  let data := match g with | none => JsVal.null | some v => v
  let eps := data.getField "endpoints"
  let endpointData := eps.getField endpoint
  if data.truthy && eps.truthy && endpointData.truthy then
    if (endpointData.getField "error").truthy then .null else endpointData
  else .null

/-- The retry loop of `fetchFromCKAN` (`api.js` lines 128–168): try attempts
`a, a+1, ...` while fuel lasts, propagating `lastError` when every attempt
fails (sleeps only pace the loop and are dropped from the model). -/
def retryLoop (f : ℕ → Except String (List JsVal)) :
    ℕ → ℕ → Except String (List JsVal)
  | a, 0 => f a
  | a, fuel + 1 =>
    match f a with
    | .ok r => .ok r
    | .error _ => retryLoop f (a + 1) fuel

/-- Model of `fetchFromCKAN` (`api.js` lines 128–168): up to
`1 + RETRY_CONFIG.maxRetries` attempts. -/
def fetchFromCKAN (env : ApiEnv) (resourceId : String) : Except String (List JsVal) :=
  retryLoop (env.ckan resourceId) 0 RETRY_maxRetries

/-- Model of `transformDamStatus` (`api.js` lines 189–202). -/
def transformDamStatus (records : List JsVal) : JsVal :=
  .arr (records.map (fun r => .obj [
    ("BarajAdi", jsOr (r.getField "Baraj Adı") (r.getField "BarajAdi")),
    ("SuKotu", .num (numOr0 (jsOr (r.getField "Su Kotu (m)") (r.getField "SuKotu")))),
    ("SuDurumu", .num (numOr0 (jsOr (r.getField "Su Hacmi (m³)") (r.getField "SuDurumu")))),
    ("DolulukOrani", .num (numOr0 (jsOr (r.getField "Doluluk Oranı (%)") (r.getField "DolulukOrani")))),
    ("MinimumSuKapasitesi", .num (numOr0 (jsOr (r.getField "Minimum Su Kapasitesi (m³)") (r.getField "MinimumSuKapasitesi")))),
    ("MaksimumSuKapasitesi", .num (numOr0 (jsOr (r.getField "Maksimum Su Kapasitesi (m³)") (r.getField "MaksimumSuKapasitesi")))),
    ("KullanilabilirSuKapasitesi", .num (numOr0 (jsOr (r.getField "Kullanılabilir Su Hacmi (m³)") (r.getField "KullanilabilirSuKapasitesi")))),
    ("Tarih", jsOr (r.getField "Tarih") (r.getField "Tarih")),
    ("Enlem", .num (numOr0 (jsOr (r.getField "Enlem") (r.getField "Enlem")))),
    ("Boylam", .num (numOr0 (jsOr (r.getField "Boylam") (r.getField "Boylam"))))]))

/-- Model of `transformDailyProduction` (`api.js` lines 207–240): accumulate dam and
well totals and the per-source list, then wrap them with today's date. -/
def transformDailyProduction (records : List JsVal) (todayStr : String) : JsVal :=
  let step := fun (acc : ℚ × ℚ × List JsVal) (r : JsVal) =>
    let name := jsOr (jsOr (r.getField "Kaynak Adı") (r.getField "KaynakAdi")) (.str "")
    let amount := numOr0 (jsOr (r.getField "Üretim Miktarı (m³)") (r.getField "UretimMiktari"))
    let typeStr := strLower (jsToStr
      (jsOr (jsOr (r.getField "Kaynak Tipi") (r.getField "KaynakTipi")) (.str "")))
    let isBaraj := strIncludes typeStr "baraj"
    let src := JsVal.obj [
      ("KaynakAdi", name),
      ("KaynakTipi", .str (if isBaraj then "Baraj" else "Kuyu")),
      ("UretimMiktari", .num amount)]
    (acc.1 + (if isBaraj then amount else 0),
     acc.2.1 + (if isBaraj then 0 else amount),
     acc.2.2 ++ [src])
  let res := records.foldl step (0, 0, [])
  .obj [
    ("Tarih", .str todayStr),
    ("ToplamUretim", .num (res.1 + res.2.1)),
    ("BarajUretimi", .num res.1),
    ("KuyuUretimi", .num res.2.1),
    ("Kaynaklar", .arr res.2.2)]

/-- Model of `transformProductionDistribution` (`api.js` lines 245–253). -/
def transformProductionDistribution (records : List JsVal) (currentYear : ℤ) : JsVal :=
  .arr (records.map (fun r => .obj [
    ("Yil", .num ((parseIntOr (jsOr (r.getField "Yıl") (r.getField "Yil")) currentYear : ℤ) : ℚ)),
    ("Ay", .num ((parseIntOr (jsOr (r.getField "Ay") (r.getField "Ay")) 1 : ℤ) : ℚ)),
    ("KaynakAdi", jsOr (jsOr (r.getField "Kaynak Adı") (r.getField "KaynakAdi")) (.str "")),
    ("KaynakTipi", jsOr (jsOr (r.getField "Kaynak Tipi") (r.getField "KaynakTipi")) (.str "")),
    ("UretimMiktari", .num (numOr0 (jsOr (r.getField "Üretim Miktarı (m³)") (r.getField "UretimMiktari"))))]))

/-- A getter's source-fetch closure: runs against the current `localStorage`
(only `getDamsAndWells`' closure actually touches it, through its nested
`getDamStatus` call) and settles with a value or a thrown message. -/
abbrev FetchFn := CacheM.Store → Except String JsVal × CacheM.Store

/-- The tail of `fetchWithCache` (`api.js` lines 181–183): the awaited fetch
value is written back — unconditionally, `null` included — under the cache
key, and returned; a rejection propagates. -/
def fwcWrite (now : ℤ) (key : String) :
    Except String JsVal × CacheM.Store → Except String JsVal × CacheM.Store
  | (.error e, s) => (.error e, s)
  | (.ok v, s) => (.ok v, CacheM.set s key v now)

/-- Model of `fetchWithCache` (`api.js` lines 173–184): unless `forceRefresh`, a
non-`null` cached value (note the source tests `cached !== null`) is
returned with no fetch; otherwise the fetch closure runs and its value is
written back unconditionally. -/
def fetchWithCache (now : ℤ) (key : String) (fetchFn : FetchFn) (forceRefresh : Bool)
    (store : CacheM.Store) : Except String JsVal × CacheM.Store :=
  if forceRefresh then fwcWrite now key (fetchFn store)
  else
    let c := CacheM.get store key now
    match c.1 with
    | JsVal.null => fwcWrite now key (fetchFn c.2)
    | v => (.ok v, c.2)

/-- The fetch closure of `getOutages` (`api.js` lines 314–323): Gist only,
warning and `[]` when unavailable. -/
def outagesFetch (env : ApiEnv) : Except String JsVal :=
  let gd := getFromGist env.gist EP_OUTAGES
  if gd.truthy then .ok gd else .ok (.arr [])

/-- The fetch closure of `getDamStatus` (`api.js` lines 258–270): Gist first,
then CKAN + transform. -/
def damStatusFetch (env : ApiEnv) : Except String JsVal :=
  let gd := getFromGist env.gist EP_DAM_STATUS
  if gd.truthy then .ok gd
  else
    match fetchFromCKAN env CKAN_DAM_STATUS with
    | .error e => .error e
    | .ok records => .ok (transformDamStatus records)

/-- The fetch closure of `getDailyProduction` (`api.js` lines 275–287). -/
def dailyProductionFetch (env : ApiEnv) : Except String JsVal :=
  let gd := getFromGist env.gist EP_DAILY_PRODUCTION
  if gd.truthy then .ok gd
  else
    match fetchFromCKAN env CKAN_DAILY_PRODUCTION with
    | .error e => .error e
    | .ok records => .ok (transformDailyProduction records env.todayStr)

/-- The fetch closure of `getProductionDistribution` for the `year = null`
call `fetchAll` makes (`api.js` lines 292–309): Gist first, then CKAN with no
filter + transform. -/
def productionDistributionFetch (env : ApiEnv) : Except String JsVal :=
  let gd := getFromGist env.gist EP_PRODUCTION_DISTRIBUTION
  if gd.truthy then .ok gd
  else
    match fetchFromCKAN env CKAN_PRODUCTION_DISTRIBUTION with
    | .error e => .error e
    | .ok records => .ok (transformProductionDistribution records env.currentYear)

/-- The fetch closure of `getWeeklyAnalysis` (`api.js` lines 351–360). -/
def weeklyAnalysisFetch (env : ApiEnv) : Except String JsVal :=
  let gd := getFromGist env.gist EP_WEEKLY_ANALYSIS
  if gd.truthy then .ok gd else .ok (.obj [("Pinotlar", .arr [])])

/-- The fetch closure of `getDistrictAnalysis` (`api.js` lines 365–374). -/
def districtAnalysisFetch (env : ApiEnv) : Except String JsVal :=
  let gd := getFromGist env.gist EP_DISTRICT_ANALYSIS
  if gd.truthy then .ok gd else .ok (.obj [("Pinotlar", .arr [])])

/-- The fetch closure of `getDamQuality` (`api.js` lines 379–388). -/
def damQualityFetch (env : ApiEnv) : Except String JsVal :=
  let gd := getFromGist env.gist EP_DAM_QUALITY
  if gd.truthy then .ok gd else .ok (.obj [("Pinotlar", .arr [])])

/-- Model of `getDamStatus` (`api.js` lines 258–270) as a whole. -/
def getDamStatus (env : ApiEnv) (force : Bool) (store : CacheM.Store) :
    Except String JsVal × CacheM.Store :=
  fetchWithCache env.now EP_DAM_STATUS (fun s => (damStatusFetch env, s)) force store

/-- The fetch closure of `getDamsAndWells` (`api.js` lines 328–346): Gist
first, otherwise derive from `getDamStatus(forceRefresh)` — a nested getter
call that itself goes through cache and store. -/
def damsWellsFetch (env : ApiEnv) (force : Bool) (store : CacheM.Store) :
    Except String JsVal × CacheM.Store :=
  let gd := getFromGist env.gist EP_DAMS_WELLS
  if gd.truthy then (.ok gd, store)
  else
    match getDamStatus env force store with
    | (.error e, s1) => (.error e, s1)
    | (.ok dsv, s1) =>
      match dsv with
      | .arr l => (.ok (.arr (l.map (fun d => .obj [
          ("Adi", d.getField "BarajAdi"),
          ("Tipi", .str "Baraj"),
          ("Enlem", d.getField "Enlem"),
          ("Boylam", d.getField "Boylam"),
          ("Kapasite", d.getField "MaksimumSuKapasitesi")]))), s1)
      | _ => (.error "damStatus.map is not a function", s1)

/-- Model of `getOutages` (`api.js` lines 314–323). -/
def getOutages (env : ApiEnv) (force : Bool) (store : CacheM.Store) :
    Except String JsVal × CacheM.Store :=
  fetchWithCache env.now EP_OUTAGES (fun s => (outagesFetch env, s)) force store

/-- Model of `getDamsAndWells` (`api.js` lines 328–346). -/
def getDamsAndWells (env : ApiEnv) (force : Bool) (store : CacheM.Store) :
    Except String JsVal × CacheM.Store :=
  fetchWithCache env.now EP_DAMS_WELLS (damsWellsFetch env force) force store

/-- Model of `getDailyProduction` (`api.js` lines 275–287). -/
def getDailyProduction (env : ApiEnv) (force : Bool) (store : CacheM.Store) :
    Except String JsVal × CacheM.Store :=
  fetchWithCache env.now EP_DAILY_PRODUCTION (fun s => (dailyProductionFetch env, s)) force store

/-- Model of `getProductionDistribution(null, forceRefresh)` (`api.js` lines 292–309). -/
def getProductionDistribution (env : ApiEnv) (force : Bool) (store : CacheM.Store) :
    Except String JsVal × CacheM.Store :=
  fetchWithCache env.now EP_PRODUCTION_DISTRIBUTION
    (fun s => (productionDistributionFetch env, s)) force store

/-- Model of `getWeeklyAnalysis` (`api.js` lines 351–360). -/
def getWeeklyAnalysis (env : ApiEnv) (force : Bool) (store : CacheM.Store) :
    Except String JsVal × CacheM.Store :=
  fetchWithCache env.now EP_WEEKLY_ANALYSIS (fun s => (weeklyAnalysisFetch env, s)) force store

/-- Model of `getDistrictAnalysis` (`api.js` lines 365–374). -/
def getDistrictAnalysis (env : ApiEnv) (force : Bool) (store : CacheM.Store) :
    Except String JsVal × CacheM.Store :=
  fetchWithCache env.now EP_DISTRICT_ANALYSIS (fun s => (districtAnalysisFetch env, s)) force store

/-- Model of `getDamQuality` (`api.js` lines 379–388). -/
def getDamQuality (env : ApiEnv) (force : Bool) (store : CacheM.Store) :
    Except String JsVal × CacheM.Store :=
  fetchWithCache env.now EP_DAM_QUALITY (fun s => (damQualityFetch env, s)) force store

end ApiA

namespace ApiA

/-- The district accumulator of `getConsumption` (`api.js` lines 423–436):
`byDistrict[district]` updated in place, insertion order preserved (as a
JavaScript object's string keys are). -/
def bumpDistrict : List (String × ℚ × ℤ) → String → ℚ → ℤ → List (String × ℚ × ℤ)
  | [], d, c, s => [(d, c, s)]
  | (k, cv, sv) :: rest, d, c, s =>
    if k = d then (k, cv + c, sv + s) :: rest
    else (k, cv, sv) :: bumpDistrict rest d c s

/-- The fetch closure of `getConsumption` (`api.js` lines 400–453): one
unretried CKAN request filtered to `targetYear` (its settled records come
from `env.consumption`; a `success: false` body is the thrown
`Tuketim verisi alinamadi`), aggregated per district and wrapped with
year-level totals.  `NaN` propagation through missing numeric fields is not
modelled (numeric fields coerce to 0 as everywhere else in this model). -/
def consumptionFetch (env : ApiEnv) (targetYear : ℤ) : Except String JsVal :=
  match env.consumption targetYear with
  | .error e => .error e
  | .ok records =>
    let step := fun (acc : List (String × ℚ × ℤ) × ℚ × ℤ) (r : JsVal) =>
      let district := jsToStr (jsOr (r.getField "ILCE") (.str "Bilinmiyor"))
      let cons := numOr0 (r.getField "ORTALAMA_TUKETIM")
      let subscribers := parseIntOr (r.getField "ABONE_ADEDI") 0
      (bumpDistrict acc.1 district (cons * (subscribers : ℚ)) subscribers,
       acc.2.1 + cons * (subscribers : ℚ),
       acc.2.2 + subscribers)
    let res := records.foldl step ([], 0, 0)
    let districts := res.1.map (fun p => JsVal.obj [
      ("Ilce", .str p.1),
      ("ToplamTuketim", .num p.2.1),
      ("AboneSayisi", .num ((p.2.2 : ℤ) : ℚ)),
      ("OrtalamaGunlukTuketim", .num (if 0 < p.2.2 then p.2.1 / ((p.2.2 : ℤ) : ℚ) / 30 else 0))])
    let sorted := districts.mergeSort (fun a b =>
      decide (numOr0 (b.getField "ToplamTuketim") ≤ numOr0 (a.getField "ToplamTuketim")))
    .ok (.obj [
      ("Yil", .num (targetYear : ℚ)),
      ("ToplamTuketim", .num res.2.1),
      ("ToplamAbone", .num ((res.2.2 : ℤ) : ℚ)),
      ("GunlukOrtalamaTuketim", .num (res.2.1 / 365)),
      ("Ilceler", .arr sorted)])

/-- The fetch closure of `getWaterLosses` (`api.js` lines 459–476). -/
def waterLossesFetch (env : ApiEnv) : Except String JsVal :=
  match fetchFromCKAN env CKAN_WATER_LOSSES with
  | .error e => .error e
  | .ok records => .ok (.arr (records.map (fun r => .obj [
      ("Yil", .num ((parseIntOr (r.getField "YIL") 0 : ℤ) : ℚ)),
      ("Ilce", jsOr (r.getField "ILCE") (.str "")),
      ("SistemeGirenSu", .num (numOr0 (r.getField "SISTEME_GIREN_SU_MIKTARI"))),
      ("GelirGetirenSu", .num (numOr0 (r.getField "GELIR_GETIREN_SU_MIKTARI"))),
      ("SuKayiplari", .num (numOr0 (r.getField "SU_KAYIPLARI"))),
      ("FizikiKayiplar", .num (numOr0 (r.getField "FIZIKI_KAYIPLAR"))),
      ("IzinsizTuketim", .num (numOr0 (r.getField "IZINSIZ_TUKETIM"))),
      ("KayipOrani", .num (
        if 0 < numOr0 (r.getField "SISTEME_GIREN_SU_MIKTARI") then
          numOr0 (r.getField "SU_KAYIPLARI") / numOr0 (r.getField "SISTEME_GIREN_SU_MIKTARI") * 100
        else 0))])))

/-- The fetch closure of `getTariffs` (`api.js` lines 481–494). -/
def tariffsFetch (env : ApiEnv) : Except String JsVal :=
  match fetchFromCKAN env CKAN_TARIFFS with
  | .error e => .error e
  | .ok records => .ok (.arr (records.map (fun r => .obj [
      ("AboneTipi", jsOr (r.getField "ABONE_TIPI") (.str "")),
      ("Tur", jsOr (r.getField "TUR") (.str "")),
      ("MetreKup", jsOr (r.getField "BARAJ_METRE_KUP") (.str "")),
      ("SuFiyati", .num (numOr0 (r.getField "SU_FIYATI"))),
      ("AtiksuFiyati", .num (numOr0 (r.getField "ATIKSU_FIYATI"))),
      ("GecerlilikTarihi", jsOr (r.getField "GECERLILIK_TARIHI") (.str ""))])))

/-- Model of `getConsumption` (`api.js` lines 395–453), with
`targetYear = year || currentYear` already resolved: cache key
`tuketim_<targetYear>`. -/
def getConsumption (env : ApiEnv) (targetYear : ℤ) (force : Bool) (store : CacheM.Store) :
    Except String JsVal × CacheM.Store :=
  fetchWithCache env.now (EP_CONSUMPTION ++ "_" ++ toString targetYear)
    (fun s => (consumptionFetch env targetYear, s)) force store

/-- Model of `getWaterLosses` (`api.js` lines 459–476). -/
def getWaterLosses (env : ApiEnv) (force : Bool) (store : CacheM.Store) :
    Except String JsVal × CacheM.Store :=
  fetchWithCache env.now EP_WATER_LOSSES (fun s => (waterLossesFetch env, s)) force store

/-- Model of `getTariffs` (`api.js` lines 481–494). -/
def getTariffs (env : ApiEnv) (force : Bool) (store : CacheM.Store) :
    Except String JsVal × CacheM.Store :=
  fetchWithCache env.now EP_TARIFFS (fun s => (tariffsFetch env, s)) force store

/-- The eight logical endpoints `fetchAll` fans out over
(`api.js` lines 500–509). -/
inductive Ep8 where
  | outages
  | damsWells
  | damStatus
  | dailyProduction
  | productionDistribution
  | weeklyAnalysis
  | districtAnalysis
  | damQuality
deriving DecidableEq

/-- The settled outcome of each endpoint's getter, as collected by
`Promise.allSettled` — each getter runs independently guarded, against the
store as of the start of the batch (every property proved below holds for
all well-formed stores, hence under any interleaving of the concurrent
getters' cache writes, which preserve well-formedness). -/
def epResult (env : ApiEnv) (force : Bool) (store : CacheM.Store) : Ep8 → Except String JsVal
  | .outages => (getOutages env force store).1
  | .damsWells => (getDamsAndWells env force store).1
  | .damStatus => (getDamStatus env force store).1
  | .dailyProduction => (getDailyProduction env force store).1
  | .productionDistribution => (getProductionDistribution env force store).1
  | .weeklyAnalysis => (getWeeklyAnalysis env force store).1
  | .districtAnalysis => (getDistrictAnalysis env force store).1
  | .damQuality => (getDamQuality env force store).1

/-- The settled outcome of each endpoint's source-fetch closure (the
`fetchFn` passed to `fetchWithCache`), before any cache interaction of the
wrapper itself. -/
def epFetchResult (env : ApiEnv) (force : Bool) (store : CacheM.Store) :
    Ep8 → Except String JsVal
  | .outages => outagesFetch env
  | .damsWells => (damsWellsFetch env force store).1
  | .damStatus => damStatusFetch env
  | .dailyProduction => dailyProductionFetch env
  | .productionDistribution => productionDistributionFetch env
  | .weeklyAnalysis => weeklyAnalysisFetch env
  | .districtAnalysis => districtAnalysisFetch env
  | .damQuality => damQualityFetch env

/-- The per-endpoint fallback passed to `extract`
(`api.js` lines 520–535): the empty array, or `null` for the object-shaped
endpoints. -/
def epFallback : Ep8 → JsVal
  | .outages => .arr []
  | .damsWells => .arr []
  | .damStatus => .arr []
  | .dailyProduction => .null
  | .productionDistribution => .arr []
  | .weeklyAnalysis => .null
  | .districtAnalysis => .null
  | .damQuality => .null

/-- The endpoint's cache key (`ENDPOINTS` value) used by its getter. -/
def epKey : Ep8 → String
  | .outages => EP_OUTAGES
  | .damsWells => EP_DAMS_WELLS
  | .damStatus => EP_DAM_STATUS
  | .dailyProduction => EP_DAILY_PRODUCTION
  | .productionDistribution => EP_PRODUCTION_DISTRIBUTION
  | .weeklyAnalysis => EP_WEEKLY_ANALYSIS
  | .districtAnalysis => EP_DISTRICT_ANALYSIS
  | .damQuality => EP_DAM_QUALITY

/-- The object `fetchAll` resolves with (`api.js` lines 519–536). -/
structure AggregateResult where
  outages : JsVal
  outagesError : Option String
  damsWells : JsVal
  damsWellsError : Option String
  damStatus : JsVal
  damStatusError : Option String
  dailyProduction : JsVal
  dailyProductionError : Option String
  productionDistribution : JsVal
  productionDistributionError : Option String
  weeklyAnalysis : JsVal
  weeklyAnalysisError : Option String
  districtAnalysis : JsVal
  districtAnalysisError : Option String
  damQuality : JsVal
  damQualityError : Option String

/-- Model of `extract` (`api.js` lines 511–517): a fulfilled getter yields its value
with a `null` error; a rejected one yields the fallback plus
`result.reason?.message || 'Unknown error'` (so an empty message still
surfaces as a string). -/
def extract (result : Except String JsVal) (fallback : JsVal) : JsVal × Option String :=
  match result with
  | .ok v => (v, none)
  | .error m => (fallback, some (if m = "" then "Unknown error" else m))

/-- The record construction of `fetchAll` (`api.js` lines 519–536) over the
eight settled outcomes. -/
def aggregateOf (rs : Ep8 → Except String JsVal) : AggregateResult :=
  { outages := (extract (rs .outages) (.arr [])).1
    outagesError := (extract (rs .outages) (.arr [])).2
    damsWells := (extract (rs .damsWells) (.arr [])).1
    damsWellsError := (extract (rs .damsWells) (.arr [])).2
    damStatus := (extract (rs .damStatus) (.arr [])).1
    damStatusError := (extract (rs .damStatus) (.arr [])).2
    dailyProduction := (extract (rs .dailyProduction) .null).1
    dailyProductionError := (extract (rs .dailyProduction) .null).2
    productionDistribution := (extract (rs .productionDistribution) (.arr [])).1
    productionDistributionError := (extract (rs .productionDistribution) (.arr [])).2
    weeklyAnalysis := (extract (rs .weeklyAnalysis) .null).1
    weeklyAnalysisError := (extract (rs .weeklyAnalysis) .null).2
    districtAnalysis := (extract (rs .districtAnalysis) .null).1
    districtAnalysisError := (extract (rs .districtAnalysis) .null).2
    damQuality := (extract (rs .damQuality) .null).1
    damQualityError := (extract (rs .damQuality) .null).2 }

/-- Model of `fetchAll` (`api.js` lines 499–537): settle all eight getters and build
the aggregate object. -/
def fetchAll (env : ApiEnv) (force : Bool) (store : CacheM.Store) : AggregateResult :=
  aggregateOf (epResult env force store)

/-- The `data` slot of the aggregate for an endpoint. -/
def epData (a : AggregateResult) : Ep8 → JsVal
  | .outages => a.outages
  | .damsWells => a.damsWells
  | .damStatus => a.damStatus
  | .dailyProduction => a.dailyProduction
  | .productionDistribution => a.productionDistribution
  | .weeklyAnalysis => a.weeklyAnalysis
  | .districtAnalysis => a.districtAnalysis
  | .damQuality => a.damQuality

/-- The error slot of the aggregate for an endpoint. -/
def epError (a : AggregateResult) : Ep8 → Option String
  | .outages => a.outagesError
  | .damsWells => a.damsWellsError
  | .damStatus => a.damStatusError
  | .dailyProduction => a.dailyProductionError
  | .productionDistribution => a.productionDistributionError
  | .weeklyAnalysis => a.weeklyAnalysisError
  | .districtAnalysis => a.districtAnalysisError
  | .damQuality => a.damQualityError

end ApiA

namespace CacheM

/-- Well-formedness of a store as produced by this code base: entry payloads
come from `JSON.parse` (never `undefined`), and only the settings key holds
a settings object. -/
def wfStore (st : Store) : Prop :=
  ∀ p ∈ st, match p.2 with
    | StoredVal.entry d _ => d ≠ JsVal.undefined
    | StoredVal.settingsVal _ => p.1 = settingsKey
    | StoredVal.corrupt => True

/-- Filtering (eviction) preserves well-formedness. -/
theorem wfStore_filter {st : Store} (p : String × StoredVal → Bool) (h : wfStore st) :
    wfStore (st.filter p) :=
  fun q hq => h q (List.mem_of_mem_filter hq)

/-- Model of `get` leaves the store well-formed (it only ever evicts). -/
theorem wfStore_get_snd {st : Store} {key : String} {now : ℤ} (h : wfStore st) :
    wfStore ((CacheM.get st key now).2) := by
  unfold CacheM.get
  cases hfind : storeFind st (getCacheKey key) with
  | none => exact h
  | some sv =>
    cases sv with
    | corrupt => exact h
    | settingsVal s => exact h
    | entry d ts =>
      by_cases hexp : now - ts > getTTL st
      · simp only [if_pos hexp]
        exact wfStore_filter _ h
      · simp only [if_neg hexp]
        exact h

/-- On a well-formed store, `get` of a non-settings key never returns
`undefined`. -/
theorem get_fst_ne_undefined {st : Store} {key : String} {now : ℤ} (hwf : wfStore st)
    (hk : getCacheKey key ≠ settingsKey) :
    (CacheM.get st key now).1 ≠ JsVal.undefined := by
  unfold CacheM.get
  cases hfind : storeFind st (getCacheKey key) with
  | none => simp
  | some sv =>
    cases sv with
    | corrupt => simp
    | settingsVal s => exact absurd (hwf _ (storeFind_mem hfind)) hk
    | entry d ts =>
      by_cases hexp : now - ts > getTTL st
      · simp [hexp]
      · simp only [if_neg hexp]
        exact hwf _ (storeFind_mem hfind)

end CacheM

namespace ApiA

/-- Model of `getFromGist` yields `null` or a truthy payload — never `undefined`, and
never a falsy non-null value. -/
theorem getFromGist_null_or_truthy (g : Option JsVal) (ep : String) :
    getFromGist g ep = JsVal.null ∨ (getFromGist g ep).truthy = true := by
  unfold getFromGist
  dsimp only
  split_ifs with h1 h2
  · exact Or.inl rfl
  · right
    simp only [Bool.and_eq_true] at h1
    exact h1.2
  · exact Or.inl rfl

/-- The outages fetch closure only fulfills with truthy values. -/
theorem outagesFetch_ok_truthy (env : ApiEnv) (v : JsVal)
    (h : outagesFetch env = .ok v) : v.truthy = true := by
  unfold outagesFetch at h
  dsimp only at h
  split_ifs at h with hgd
  · injection h with h2; subst h2; exact hgd
  · injection h with h2; subst h2; rfl

/-- The weekly-analysis fetch closure only fulfills with truthy values. -/
theorem weeklyAnalysisFetch_ok_truthy (env : ApiEnv) (v : JsVal)
    (h : weeklyAnalysisFetch env = .ok v) : v.truthy = true := by
  unfold weeklyAnalysisFetch at h
  dsimp only at h
  split_ifs at h with hgd
  · injection h with h2; subst h2; exact hgd
  · injection h with h2; subst h2; rfl

/-- The district-analysis fetch closure only fulfills with truthy values. -/
theorem districtAnalysisFetch_ok_truthy (env : ApiEnv) (v : JsVal)
    (h : districtAnalysisFetch env = .ok v) : v.truthy = true := by
  unfold districtAnalysisFetch at h
  dsimp only at h
  split_ifs at h with hgd
  · injection h with h2; subst h2; exact hgd
  · injection h with h2; subst h2; rfl

/-- The dam-quality fetch closure only fulfills with truthy values. -/
theorem damQualityFetch_ok_truthy (env : ApiEnv) (v : JsVal)
    (h : damQualityFetch env = .ok v) : v.truthy = true := by
  unfold damQualityFetch at h
  dsimp only at h
  split_ifs at h with hgd
  · injection h with h2; subst h2; exact hgd
  · injection h with h2; subst h2; rfl

/-- The dam-status fetch closure only fulfills with truthy values. -/
theorem damStatusFetch_ok_truthy (env : ApiEnv) (v : JsVal)
    (h : damStatusFetch env = .ok v) : v.truthy = true := by
  unfold damStatusFetch at h
  dsimp only at h
  split_ifs at h with hgd
  · injection h with h2; subst h2; exact hgd
  · cases hck : fetchFromCKAN env CKAN_DAM_STATUS with
    | error e => rw [hck] at h; simp at h
    | ok records =>
      rw [hck] at h
      injection h with h2
      subst h2
      rfl

/-- The daily-production fetch closure only fulfills with truthy values. -/
theorem dailyProductionFetch_ok_truthy (env : ApiEnv) (v : JsVal)
    (h : dailyProductionFetch env = .ok v) : v.truthy = true := by
  unfold dailyProductionFetch at h
  dsimp only at h
  split_ifs at h with hgd
  · injection h with h2; subst h2; exact hgd
  · cases hck : fetchFromCKAN env CKAN_DAILY_PRODUCTION with
    | error e => rw [hck] at h; simp at h
    | ok records =>
      rw [hck] at h
      injection h with h2
      subst h2
      rfl

/-- The production-distribution fetch closure only fulfills with truthy
values. -/
theorem productionDistributionFetch_ok_truthy (env : ApiEnv) (v : JsVal)
    (h : productionDistributionFetch env = .ok v) : v.truthy = true := by
  unfold productionDistributionFetch at h
  dsimp only at h
  split_ifs at h with hgd
  · injection h with h2; subst h2; exact hgd
  · cases hck : fetchFromCKAN env CKAN_PRODUCTION_DISTRIBUTION with
    | error e => rw [hck] at h; simp at h
    | ok records =>
      rw [hck] at h
      injection h with h2
      subst h2
      rfl

/-- The dams-and-wells fetch closure only fulfills with truthy values. -/
theorem damsWellsFetch_ok_truthy (env : ApiEnv) (force : Bool) (store : CacheM.Store)
    (v : JsVal) (h : (damsWellsFetch env force store).1 = .ok v) : v.truthy = true := by
  unfold damsWellsFetch at h
  dsimp only at h
  split_ifs at h with hgd
  · injection h with h2; subst h2; exact hgd
  · rcases hds : getDamStatus env force store with ⟨r, s1⟩
    rw [hds] at h
    cases r with
    | error e => simp at h
    | ok dsv =>
      cases dsv with
      | arr l =>
        dsimp only at h
        injection h with h2
        subst h2
        rfl
      | undefined => simp at h
      | null => simp at h
      | bool b => simp at h
      | num q => simp at h
      | str s => simp at h
      | obj fs => simp at h

/-- The consumption fetch closure only fulfills with truthy values. -/
theorem consumptionFetch_ok_truthy (env : ApiEnv) (targetYear : ℤ) (v : JsVal)
    (h : consumptionFetch env targetYear = .ok v) : v.truthy = true := by
  unfold consumptionFetch at h
  cases hc : env.consumption targetYear with
  | error e => rw [hc] at h; simp at h
  | ok records =>
    rw [hc] at h
    injection h with h2
    subst h2
    rfl

/-- The water-losses fetch closure only fulfills with truthy values. -/
theorem waterLossesFetch_ok_truthy (env : ApiEnv) (v : JsVal)
    (h : waterLossesFetch env = .ok v) : v.truthy = true := by
  unfold waterLossesFetch at h
  cases hck : fetchFromCKAN env CKAN_WATER_LOSSES with
  | error e => rw [hck] at h; simp at h
  | ok records =>
    rw [hck] at h
    injection h with h2
    subst h2
    rfl

/-- The tariffs fetch closure only fulfills with truthy values. -/
theorem tariffsFetch_ok_truthy (env : ApiEnv) (v : JsVal)
    (h : tariffsFetch env = .ok v) : v.truthy = true := by
  unfold tariffsFetch at h
  cases hck : fetchFromCKAN env CKAN_TARIFFS with
  | error e => rw [hck] at h; simp at h
  | ok records =>
    rw [hck] at h
    injection h with h2
    subst h2
    rfl

/-- Every endpoint fetch closure only fulfills with truthy (hence non-null,
non-undefined) values. -/
theorem epFetchResult_ok_truthy (env : ApiEnv) (force : Bool) (store : CacheM.Store)
    (e : Ep8) (v : JsVal) (h : epFetchResult env force store e = .ok v) :
    v.truthy = true := by
  cases e with
  | outages => exact outagesFetch_ok_truthy env v h
  | damsWells => exact damsWellsFetch_ok_truthy env force store v h
  | damStatus => exact damStatusFetch_ok_truthy env v h
  | dailyProduction => exact dailyProductionFetch_ok_truthy env v h
  | productionDistribution => exact productionDistributionFetch_ok_truthy env v h
  | weeklyAnalysis => exact weeklyAnalysisFetch_ok_truthy env v h
  | districtAnalysis => exact districtAnalysisFetch_ok_truthy env v h
  | damQuality => exact damQualityFetch_ok_truthy env v h

/-- A getter built on `fetchWithCache` only fulfills with defined values:
the cached branch cannot yield `undefined` on a well-formed store, and the
fetch branch only fulfills with truthy values. -/
theorem fetchWithCache_ok_ne_undefined (now : ℤ) (key : String) (fetchFn : FetchFn)
    (force : Bool) (store : CacheM.Store) (hwf : CacheM.wfStore store)
    (hk : CacheM.getCacheKey key ≠ CacheM.settingsKey)
    (hfn : ∀ s v s2, fetchFn s = (.ok v, s2) → v.truthy = true) :
    ∀ v, (fetchWithCache now key fetchFn force store).1 = .ok v → v ≠ JsVal.undefined := by
  intro v h
  unfold fetchWithCache at h
  cases force with
  | true =>
    rw [if_pos rfl] at h
    rcases hrun : fetchFn store with ⟨r, s2⟩
    rw [hrun] at h
    cases r with
    | error e => simp [fwcWrite] at h
    | ok w =>
      simp only [fwcWrite] at h
      injection h with h2
      subst h2
      exact truthy_ne_undefined (hfn store w s2 hrun)
  | false =>
    rw [if_neg (by simp)] at h
    rcases hget : CacheM.get store key now with ⟨cv, cs⟩
    rw [hget] at h
    cases cv with
    | null =>
      dsimp only at h
      rcases hrun : fetchFn cs with ⟨r, s2⟩
      rw [hrun] at h
      cases r with
      | error e => simp [fwcWrite] at h
      | ok w =>
        simp only [fwcWrite] at h
        injection h with h2
        subst h2
        exact truthy_ne_undefined (hfn cs w s2 hrun)
    | undefined =>
      have hne := @CacheM.get_fst_ne_undefined store key now hwf hk
      rw [hget] at hne
      exact absurd rfl hne
    | bool b => dsimp only at h; injection h with h2; subst h2; simp
    | num q => dsimp only at h; injection h with h2; subst h2; simp
    | str s => dsimp only at h; injection h with h2; subst h2; simp
    | arr l => dsimp only at h; injection h with h2; subst h2; simp
    | obj fs => dsimp only at h; injection h with h2; subst h2; simp

/-- Every getter of the `fetchAll` batch only fulfills with defined values
on a well-formed store. -/
theorem epResult_ok_ne_undefined (env : ApiEnv) (force : Bool) (store : CacheM.Store)
    (hwf : CacheM.wfStore store) (e : Ep8) (v : JsVal)
    (h : epResult env force store e = .ok v) : v ≠ JsVal.undefined := by
  cases e with
  | outages =>
    exact fetchWithCache_ok_ne_undefined env.now EP_OUTAGES _ force store hwf (by decide)
      (fun s w s2 hrun => outagesFetch_ok_truthy env w
        ((Prod.mk.injEq _ _ _ _ ▸ hrun).1)) v h
  | damsWells =>
    exact fetchWithCache_ok_ne_undefined env.now EP_DAMS_WELLS _ force store hwf (by decide)
      (fun s w s2 hrun => damsWellsFetch_ok_truthy env force s w
        (by rw [hrun])) v h
  | damStatus =>
    exact fetchWithCache_ok_ne_undefined env.now EP_DAM_STATUS _ force store hwf (by decide)
      (fun s w s2 hrun => damStatusFetch_ok_truthy env w
        ((Prod.mk.injEq _ _ _ _ ▸ hrun).1)) v h
  | dailyProduction =>
    exact fetchWithCache_ok_ne_undefined env.now EP_DAILY_PRODUCTION _ force store hwf (by decide)
      (fun s w s2 hrun => dailyProductionFetch_ok_truthy env w
        ((Prod.mk.injEq _ _ _ _ ▸ hrun).1)) v h
  | productionDistribution =>
    exact fetchWithCache_ok_ne_undefined env.now EP_PRODUCTION_DISTRIBUTION _ force store hwf
      (by decide)
      (fun s w s2 hrun => productionDistributionFetch_ok_truthy env w
        ((Prod.mk.injEq _ _ _ _ ▸ hrun).1)) v h
  | weeklyAnalysis =>
    exact fetchWithCache_ok_ne_undefined env.now EP_WEEKLY_ANALYSIS _ force store hwf (by decide)
      (fun s w s2 hrun => weeklyAnalysisFetch_ok_truthy env w
        ((Prod.mk.injEq _ _ _ _ ▸ hrun).1)) v h
  | districtAnalysis =>
    exact fetchWithCache_ok_ne_undefined env.now EP_DISTRICT_ANALYSIS _ force store hwf (by decide)
      (fun s w s2 hrun => districtAnalysisFetch_ok_truthy env w
        ((Prod.mk.injEq _ _ _ _ ▸ hrun).1)) v h
  | damQuality =>
    exact fetchWithCache_ok_ne_undefined env.now EP_DAM_QUALITY _ force store hwf (by decide)
      (fun s w s2 hrun => damQualityFetch_ok_truthy env w
        ((Prod.mk.injEq _ _ _ _ ▸ hrun).1)) v h

/-- The `data` slot of the aggregate is the first component of `extract` on
the endpoint's settled outcome. -/
theorem epData_aggregateOf (rs : Ep8 → Except String JsVal) (e : Ep8) :
    epData (aggregateOf rs) e = (extract (rs e) (epFallback e)).1 := by
  cases e <;> rfl

/-- The error slot of the aggregate is the second component of `extract` on
the endpoint's settled outcome. -/
theorem epError_aggregateOf (rs : Ep8 → Except String JsVal) (e : Ep8) :
    epError (aggregateOf rs) e = (extract (rs e) (epFallback e)).2 := by
  cases e <;> rfl

end ApiA

open ApiA in
/-- Claim C2: for every one of the 8 logical endpoints of `fetchAll`, the
aggregate carries a `data` slot that is never `undefined` — the fulfilled
value on success (well-formedness of the store rules out an undefined cached
value) and the endpoint's declared fallback (empty array, or `null` for the
object-shaped endpoints) on failure — together with an error slot that is a
string exactly when the endpoint's getter rejected and `null` (here `none`)
when it fulfilled. -/
theorem fetchAll_slots_defined (env : ApiEnv) (force : Bool) (store : CacheM.Store)
    (hwf : CacheM.wfStore store) (e : Ep8) :
    epData (fetchAll env force store) e ≠ JsVal.undefined ∧
    (∀ v, epResult env force store e = .ok v →
      epData (fetchAll env force store) e = v ∧
      epError (fetchAll env force store) e = none) ∧
    (∀ m, epResult env force store e = .error m →
      epData (fetchAll env force store) e = epFallback e ∧
      ∃ s, epError (fetchAll env force store) e = some s) ∧
    (epFallback e = .arr [] ∨ epFallback e = .null) := by
  have hd := epData_aggregateOf (epResult env force store) e
  have he := epError_aggregateOf (epResult env force store) e
  refine ⟨?_, ?_, ?_, ?_⟩
  · rw [show fetchAll env force store = aggregateOf (epResult env force store) from rfl, hd]
    cases hr : epResult env force store e with
    | ok v =>
      simpa [extract] using epResult_ok_ne_undefined env force store hwf e v hr
    | error m =>
      simp only [extract]
      cases e <;> simp [epFallback]
  · intro v hr
    rw [show fetchAll env force store = aggregateOf (epResult env force store) from rfl,
      hd, he, hr]
    exact ⟨rfl, rfl⟩
  · intro m hr
    rw [show fetchAll env force store = aggregateOf (epResult env force store) from rfl,
      hd, he, hr]
    exact ⟨rfl, _, rfl⟩
  · cases e <;> simp [epFallback]

/-- A concrete offline environment: the Gist envelope fetch resolved `null`
and every CKAN request fails. -/
def offlineEnv : ApiA.ApiEnv :=
  { gist := none
    ckan := fun _ _ => .error "network error"
    consumption := fun _ => .error "network error"
    todayStr := "2026-01-01"
    currentYear := 2026
    now := 0 }

open ApiA in
/-- Witness for C2 on the empty store in the offline environment. -/
theorem fetchAll_slots_defined_witness :
    epData (fetchAll offlineEnv false []) Ep8.outages ≠ JsVal.undefined :=
  (fetchAll_slots_defined offlineEnv false []
    (by intro p hp; exact absurd hp (List.not_mem_nil p)) Ep8.outages).1

open ApiA in
/-- Claim C3: `fetchAll` is the total aggregation of the eight independently
settled getter outcomes (`Promise.allSettled`, so the aggregate always
resolves, never throws), and each endpoint's slot depends only on its own
outcome: whenever one endpoint's getter rejects while another's fulfills,
the fulfilled endpoint keeps its data with a `null` error and the rejected
endpoint gets its fallback plus an error string. -/
theorem fetchAll_failure_isolation :
    (∀ (env : ApiEnv) (force : Bool) (store : CacheM.Store),
      fetchAll env force store = aggregateOf (epResult env force store)) ∧
    (∀ (rs : Ep8 → Except String JsVal) (a b : Ep8) (m : String) (v : JsVal),
      rs a = .error m → rs b = .ok v →
      epData (aggregateOf rs) b = v ∧
      epError (aggregateOf rs) b = none ∧
      epData (aggregateOf rs) a = epFallback a ∧
      ∃ s, epError (aggregateOf rs) a = some s) := by
  refine ⟨fun env force store => rfl, ?_⟩
  intro rs a b m v ha hb
  rw [epData_aggregateOf rs b, epError_aggregateOf rs b, epData_aggregateOf rs a,
    epError_aggregateOf rs a, ha, hb]
  exact ⟨rfl, rfl, rfl, _, rfl⟩

open ApiA in
/-- Witness for C3: with the outages getter rejecting and every other getter
fulfilling `1`, the dam-status slot keeps its data and the outages slot
carries its fallback. -/
theorem fetchAll_failure_isolation_witness :
    epData (aggregateOf (fun e =>
      if e = Ep8.outages then Except.error "boom" else Except.ok (JsVal.num 1)))
      Ep8.damStatus = JsVal.num 1 ∧
    epData (aggregateOf (fun e =>
      if e = Ep8.outages then Except.error "boom" else Except.ok (JsVal.num 1)))
      Ep8.outages = epFallback Ep8.outages :=
  have h := fetchAll_failure_isolation.2
    (fun e => if e = Ep8.outages then Except.error "boom" else Except.ok (JsVal.num 1))
    Ep8.outages Ep8.damStatus "boom" (JsVal.num 1) rfl rfl
  ⟨h.1, h.2.2.1⟩

namespace ApiB

/-- Model of `fetchWithCache` of the Gist-only `API` module embedded in `cache.js`
(file lines 392–405): like the `api.js` wrapper, except the write-back is
guarded by `if (data)` — a falsy fetch value (in this module's getters,
exactly `null`) is returned but never written. -/
def fetchWithCache (now : ℤ) (key : String) (fetchVal : JsVal) (force : Bool)
    (store : CacheM.Store) : JsVal × CacheM.Store :=
  if force then
    (fetchVal, if fetchVal.truthy then CacheM.set store key fetchVal now else store)
  else
    let c := CacheM.get store key now
    match c.1 with
    | JsVal.null =>
      (fetchVal, if fetchVal.truthy then CacheM.set c.2 key fetchVal now else c.2)
    | v => (v, c.2)

/-- The per-endpoint fetch closures of the Gist-only module (`cache.js` file
lines 410–486): every getter resolves `getFromGist(endpoint) || fallback`
(for the production distribution, the `year = null` path returns the data or
`[]`); none of them can reject. -/
def epFetch (g : Option JsVal) : ApiA.Ep8 → JsVal
  | .outages => jsOr (ApiA.getFromGist g ApiA.EP_OUTAGES) (.arr [])
  | .damsWells => jsOr (ApiA.getFromGist g ApiA.EP_DAMS_WELLS) (.arr [])
  | .damStatus => jsOr (ApiA.getFromGist g ApiA.EP_DAM_STATUS) (.arr [])
  | .dailyProduction => jsOr (ApiA.getFromGist g ApiA.EP_DAILY_PRODUCTION) .null
  | .productionDistribution =>
    let d := ApiA.getFromGist g ApiA.EP_PRODUCTION_DISTRIBUTION
    if d.truthy then d else .arr []
  | .weeklyAnalysis =>
    jsOr (ApiA.getFromGist g ApiA.EP_WEEKLY_ANALYSIS) (.obj [("Pinotlar", .arr [])])
  | .districtAnalysis =>
    jsOr (ApiA.getFromGist g ApiA.EP_DISTRICT_ANALYSIS) (.obj [("Pinotlar", .arr [])])
  | .damQuality =>
    jsOr (ApiA.getFromGist g ApiA.EP_DAM_QUALITY) (.obj [("Pinotlar", .arr [])])

end ApiB

/-- The value `a || b` is `null` or truthy whenever `b` is. -/
theorem jsOr_null_or_truthy {a b : JsVal} (hb : b = JsVal.null ∨ b.truthy = true) :
    jsOr a b = JsVal.null ∨ (jsOr a b).truthy = true := by
  unfold jsOr
  by_cases h : a.truthy = true
  · rw [if_pos h]
    exact Or.inr h
  · rw [if_neg h]
    exact hb

/-- In a miss, the store `get` hands on either still holds the probed key's
old binding or no longer binds the key at all. -/
theorem get_snd_find (st : CacheM.Store) (key : String) (now : ℤ) :
    CacheM.storeFind ((CacheM.get st key now).2) (CacheM.getCacheKey key) =
      CacheM.storeFind st (CacheM.getCacheKey key) ∨
    CacheM.storeFind ((CacheM.get st key now).2) (CacheM.getCacheKey key) = none := by
  unfold CacheM.get
  cases hfind : CacheM.storeFind st (CacheM.getCacheKey key) with
  | none => exact Or.inl hfind
  | some sv =>
    cases sv with
    | corrupt => exact Or.inl hfind
    | settingsVal s => exact Or.inl hfind
    | entry d ts =>
      by_cases hexp : now - ts > CacheM.getTTL st
      · simp only [if_pos hexp]
        right
        exact CacheM.storeFind_filter_none (fun v => by simp)
      · simp only [if_neg hexp]
        exact Or.inl hfind

open ApiA in
/-- Claim C5: for every endpoint getter going through a cached-fetch wrapper,
a `null` source-fetch result is never written to the Cache Store while a
non-null result is written back under the endpoint's cache key before being
returned.  Concretely: (1) in the Gist-only module every getter's fetch
closure yields `null` or a truthy value; (2) that module's wrapper, on the
fetch path, returns `null` without creating any entry and writes a truthy
value back under the key; (3) in `api.js` no endpoint fetch closure (the
eight of `fetchAll`, plus consumption, water losses and tariffs) can fulfill
with `null` — only truthy values — so (4) its wrapper's unconditional
write-back always stores the fulfilled non-null value under the key before
returning it. -/
theorem fetchWithCache_negative_result_policy :
    (∀ (g : Option JsVal) (e : Ep8),
      ApiB.epFetch g e = JsVal.null ∨ (ApiB.epFetch g e).truthy = true) ∧
    (∀ (now : ℤ) (key : String) (v : JsVal) (force : Bool) (store : CacheM.Store),
      (force = true ∨ (CacheM.get store key now).1 = JsVal.null) →
      ((v = JsVal.null →
        (ApiB.fetchWithCache now key v force store).1 = JsVal.null ∧
        (CacheM.storeFind (ApiB.fetchWithCache now key v force store).2
            (CacheM.getCacheKey key) =
            CacheM.storeFind store (CacheM.getCacheKey key) ∨
          CacheM.storeFind (ApiB.fetchWithCache now key v force store).2
            (CacheM.getCacheKey key) = none)) ∧
       (v.truthy = true →
        (ApiB.fetchWithCache now key v force store).1 = v ∧
        CacheM.storeFind (ApiB.fetchWithCache now key v force store).2
          (CacheM.getCacheKey key) = some (CacheM.StoredVal.entry v now)))) ∧
    (∀ (env : ApiEnv) (force : Bool) (store : CacheM.Store) (e : Ep8) (v : JsVal),
      epFetchResult env force store e = .ok v → v.truthy = true) ∧
    (∀ (env : ApiEnv) (targetYear : ℤ) (v : JsVal),
      (consumptionFetch env targetYear = .ok v → v.truthy = true) ∧
      (waterLossesFetch env = .ok v → v.truthy = true) ∧
      (tariffsFetch env = .ok v → v.truthy = true)) ∧
    (∀ (now : ℤ) (key : String) (fetchFn : FetchFn) (force : Bool) (store : CacheM.Store),
      (force = true ∨ (CacheM.get store key now).1 = JsVal.null) →
      ∀ (v : JsVal) (s1 : CacheM.Store),
        fetchFn (if force then store else (CacheM.get store key now).2) = (.ok v, s1) →
        (ApiA.fetchWithCache now key fetchFn force store).1 = .ok v ∧
        CacheM.storeFind (ApiA.fetchWithCache now key fetchFn force store).2
          (CacheM.getCacheKey key) = some (CacheM.StoredVal.entry v now)) := by
  refine ⟨?_, ?_, epFetchResult_ok_truthy, ?_, ?_⟩
  · intro g e
    cases e with
    | outages => exact jsOr_null_or_truthy (Or.inr rfl)
    | damsWells => exact jsOr_null_or_truthy (Or.inr rfl)
    | damStatus => exact jsOr_null_or_truthy (Or.inr rfl)
    | dailyProduction => exact jsOr_null_or_truthy (Or.inl rfl)
    | productionDistribution =>
      unfold ApiB.epFetch
      dsimp only
      split_ifs with h1
      · exact Or.inr h1
      · exact Or.inr rfl
    | weeklyAnalysis => exact jsOr_null_or_truthy (Or.inr rfl)
    | districtAnalysis => exact jsOr_null_or_truthy (Or.inr rfl)
    | damQuality => exact jsOr_null_or_truthy (Or.inr rfl)
  · intro now key v force store hmiss
    constructor
    · intro hv
      subst hv
      cases force with
      | true => exact ⟨rfl, Or.inl rfl⟩
      | false =>
        rcases hmiss with hf | hm
        · exact absurd hf (by simp)
        · rcases hget : CacheM.get store key now with ⟨cv, cs⟩
          have hcv : cv = JsVal.null := by rw [hget] at hm; exact hm
          subst hcv
          have hrun : ApiB.fetchWithCache now key JsVal.null false store = (JsVal.null, cs) := by
            unfold ApiB.fetchWithCache
            rw [if_neg (by simp)]
            dsimp only
            rw [hget]
            rfl
          rw [hrun]
          refine ⟨rfl, ?_⟩
          have hsnd := get_snd_find store key now
          rw [hget] at hsnd
          exact hsnd
    · intro hv
      cases force with
      | true =>
        have hrun : ApiB.fetchWithCache now key v true store =
            (v, CacheM.set store key v now) := by
          unfold ApiB.fetchWithCache
          rw [if_pos rfl, if_pos hv]
        rw [hrun]
        exact ⟨rfl, CacheM.storeFind_put_self _ _ _⟩
      | false =>
        rcases hmiss with hf | hm
        · exact absurd hf (by simp)
        · rcases hget : CacheM.get store key now with ⟨cv, cs⟩
          have hcv : cv = JsVal.null := by rw [hget] at hm; exact hm
          subst hcv
          have hrun : ApiB.fetchWithCache now key v false store =
              (v, CacheM.set cs key v now) := by
            unfold ApiB.fetchWithCache
            rw [if_neg (by simp)]
            dsimp only
            rw [hget]
            dsimp only
            rw [if_pos hv]
          rw [hrun]
          exact ⟨rfl, CacheM.storeFind_put_self _ _ _⟩
  · intro env targetYear v
    exact ⟨consumptionFetch_ok_truthy env targetYear v, waterLossesFetch_ok_truthy env v,
      tariffsFetch_ok_truthy env v⟩
  · intro now key fetchFn force store hmiss v s1 hrun
    cases force with
    | true =>
      rw [if_pos rfl] at hrun
      have hres : ApiA.fetchWithCache now key fetchFn true store =
          (.ok v, CacheM.set s1 key v now) := by
        unfold ApiA.fetchWithCache
        rw [if_pos rfl, hrun]
        rfl
      rw [hres]
      exact ⟨rfl, CacheM.storeFind_put_self _ _ _⟩
    | false =>
      rcases hmiss with hf | hm
      · exact absurd hf (by simp)
      · rcases hget : CacheM.get store key now with ⟨cv, cs⟩
        have hcv : cv = JsVal.null := by rw [hget] at hm; exact hm
        subst hcv
        rw [if_neg (by simp), hget] at hrun
        dsimp only at hrun
        have hres : ApiA.fetchWithCache now key fetchFn false store =
            (.ok v, CacheM.set s1 key v now) := by
          unfold ApiA.fetchWithCache
          rw [if_neg (by simp)]
          dsimp only
          rw [hget]
          dsimp only
          rw [hrun]
          rfl
        rw [hres]
        exact ⟨rfl, CacheM.storeFind_put_self _ _ _⟩

open ApiA in
/-- Witness for C5: in the Gist-only wrapper, a `null` fetch value on the
empty store is returned without creating an entry, and the value `3` is
written back under the key; in the `api.js` wrapper the fulfilled value `3`
is written back and returned. -/
theorem fetchWithCache_negative_result_policy_witness :
    (ApiB.fetchWithCache 0 "k" JsVal.null true []).1 = JsVal.null ∧
    (ApiB.fetchWithCache 0 "k" (JsVal.num 3) true []).1 = JsVal.num 3 ∧
    CacheM.storeFind (ApiB.fetchWithCache 0 "k" (JsVal.num 3) true []).2
      (CacheM.getCacheKey "k") = some (CacheM.StoredVal.entry (JsVal.num 3) 0) ∧
    (ApiA.fetchWithCache 0 "k" (fun s => (.ok (JsVal.num 3), s)) true []).1 =
      Except.ok (JsVal.num 3) :=
  have h2 := fetchWithCache_negative_result_policy.2.1 0 "k" JsVal.null true []
    (Or.inl rfl)
  have h3 := fetchWithCache_negative_result_policy.2.1 0 "k" (JsVal.num 3) true []
    (Or.inl rfl)
  have h4 := fetchWithCache_negative_result_policy.2.2.2.2 0 "k"
    (fun s => (.ok (JsVal.num 3), s)) true [] (Or.inl rfl) (JsVal.num 3) [] rfl
  ⟨(h2.1 rfl).1, (h3.2 (by simp [JsVal.truthy])).1, (h3.2 (by simp [JsVal.truthy])).2,
    h4.1⟩
